import Mathlib

/-!
Shallow embedding of `src/vsenv.py` (module `vsenv`): a utility that detects
the native Windows architecture, locates a Visual Studio installation with
`vswhere.exe`, extracts the environment established by the matching
`vcvars*.bat` setup script, and execs the requested command under the merged
environment.

Python-level effects (the process environment, `sys.platform`, PATH lookup,
file existence, subprocess outcomes, the uuid separator, the temporary file
name) are supplied by an explicit `World` record; exceptions are modelled by
`Except PyExc`.
-/

namespace Vsenv

/-- Exceptions that can arise in `vsenv.py`.  `error` is the module's own
`class Error(Exception)`; the remaining constructors model the Python
built-in or library exceptions the code can raise. -/
inductive PyExc where
  | error (msg : String)
  | typeError (msg : String)
  | jsonDecodeError (msg : String)
  | calledProcessError (returncode : Int)
  | osError (msg : String)
  | attributeError (msg : String)
  | indexError (msg : String)
  | keyError (key : String)
  deriving DecidableEq

/-- Tests whether an exception is the module's own domain `Error` type
(what `except Error as exc:` in `main` catches). -/
def PyExc.isDomainError : PyExc → Bool
  | .error _ => true
  | _ => false

/-- An environment: a mapping from variable names to values, as `os.environ`
or its `dict` copy.  Lookup of an absent key yields `none`. -/
abbrev Env : Type := String → Option String

/-- Python `env[k] = v` on a dict viewed as a lookup function. -/
def envSet (env : Env) (k v : String) : Env :=
  fun x => if x = k then some v else env x

/-- Models Python `str.lower()` for the ASCII range (the architecture
strings handled by the program are ASCII). -/
def pyLower (s : String) : String :=
  String.mk (s.data.map Char.toLower)

/-- Helper for `splitKV`: splits a character list at the first `'='`,
returning the parts before and after it, or `none` when no `'='` occurs. -/
def splitFirstEq : List Char → Option (List Char × List Char)
  | [] => none
  | c :: rest =>
    if c = '=' then some ([], rest)
    else
      match splitFirstEq rest with
      | none => none
      | some (k, v) => some (c :: k, v)

/-- Models `line.split('=', 1)` followed by the two-element unpacking
`k, v = ...` (line 133): `some (k, v)` when the line contains an `'='`,
`none` when the unpacking would raise `ValueError` (no `'='` in the line). -/
def splitKV (line : String) : Option (String × String) :=
  match splitFirstEq line.data with
  | none => none
  | some (k, v) => some (String.mk k, String.mk v)

/-- One iteration of the merge loop (lines 129-138): a blank line is skipped
(`continue`), a line with no `'='` is silently ignored (the
`except ValueError: pass` branch), and any other line assigns
`env[k] = v` from the first-`'='` split. -/
def applyLine (env : Env) (line : String) : Env :=
  if line = "" then env
  else
    match splitKV line with
    | none => env
    | some (k, v) => envSet env k v

/-- The merge loop over the lines remaining after the separator. -/
def applyLines (env : Env) (lines : List String) : Env :=
  lines.foldl applyLine env

/-- Models the first `for line in lines: if line == separator: break` loop
(lines 126-128) over the shared iterator: all lines up to and including the
first occurrence of the separator are consumed; when the separator never
occurs the iterator is exhausted and nothing remains. -/
def dropThroughSep (sep : String) : List String → List String
  | [] => []
  | l :: rest => if l = sep then rest else dropThroughSep sep rest

/-- The whole output scan of `_setup_env` (lines 125-140) applied to the
`splitlines()` of the captured script output: discard everything up to and
including the separator, then merge the remaining `KEY=VALUE` lines into
the environment. -/
def scanOutput (sep : String) (lines : List String) (env : Env) : Env :=
  applyLines env (dropThroughSep sep lines)

/-- Outcome of the `ctypes` block of `_windows_detect_native_arch`
(lines 21-39): either the `IsWow64Process2` call succeeded and reported a
machine-type code for the native architecture, or the whole block yielded
nothing (the API returned zero, or an `OSError`/`AttributeError` was
swallowed by the `except` clause). -/
inductive Wow64Outcome where
  | unavailable
  | machine (code : Nat)
  deriving DecidableEq

/-- The machine-code dispatch of lines 30-37: a code other than the four
known constants falls through to the environment-variable path. -/
def machine_arch : Nat → Option String
  | 0x8664 => some "amd64"
  | 0x014C => some "x86"
  | 0xAA64 => some "arm64"
  | 0x01C4 => some "arm"
  | _ => none

/-- Outcome of `subprocess.run(tmp.name, stdout=PIPE, text=True, check=True)`
on the synthesized batch script (line 121): either the subprocess completed
with an exit status and captured output (already split into lines, as the
scan's `out.splitlines()` sees it), or `subprocess.run` itself raised. -/
inductive ScriptOutcome where
  | completed (exitCode : Int) (lines : List String)
  | oserror (msg : String)
  deriving DecidableEq

/-- File existence on disk, consulted by `pathlib.Path.exists` and mutated
by temporary-file creation and `os.unlink`. -/
abbrev FileSys : Type := String → Bool

/-- The ambient state `vsenv.py` reads: interpreter facts, the process
environment, PATH resolution, filesystem contents, and the outcomes of the
two subprocess invocations. -/
structure World where
  /-- `sys.platform`. -/
  platform : String
  /-- `os.environ`. -/
  environ : Env
  /-- Resolution of an executable NAME on the search path: what
  `shutil.which` would return for a string argument.  The source never
  performs such a call (see `whichCompileResult`), so this field is never
  consulted by the embedded code. -/
  whichName : String → Option String
  /-- Outcome of the `IsWow64Process2` query. -/
  wow64 : Wow64Outcome
  /-- File existence on disk at entry. -/
  fs : FileSys
  /-- Exit status of the `vswhere.exe` subprocess (line 86, `check=True`). -/
  locatorExit : Int
  /-- `json.loads` of the captured `vswhere.exe` stdout (line 88): `none`
  when the output is not valid JSON (`json.JSONDecodeError`); `some l` when
  it is a JSON array whose records carry these `installationPath` fields
  (the only part of the records the code reads, line 92). -/
  locatorJson : Option (List String)
  /-- `str(uuid.uuid4())`, the separator token (line 107). -/
  sep : String
  /-- The name of the `tempfile.NamedTemporaryFile` (line 115). -/
  tmpName : String
  /-- Outcome of executing the temporary batch script (line 121). -/
  script : ScriptOutcome

/-- The architecture value produced by the `ctypes` block, if any. -/
def wow64_arch (w : World) : Option String :=
  match w.wow64 with
  | .unavailable => none
  | .machine code => machine_arch code

/-- Embedding of `_windows_detect_native_arch` (lines 16-51).  Returns
`none` off Windows (line 18-19); otherwise tries the `IsWow64Process2`
machine code, then `PROCESSOR_ARCHITEW6432` lower-cased when non-empty,
then `PROCESSOR_ARCHITECTURE` lower-cased, and raises the domain
`Error('Unable to detect native OS architecture')` when the last variable
is absent (the `KeyError` handler, lines 49-50). -/
def windows_detect_native_arch (w : World) : Except PyExc (Option String) :=
  if w.platform ≠ "win32" then .ok none
  else
    match wow64_arch w with
    | some a => .ok (some a)
    | none =>
      let arch := pyLower ((w.environ "PROCESSOR_ARCHITEW6432").getD "")
      if arch ≠ "" then .ok (some arch)
      else
        match w.environ "PROCESSOR_ARCHITECTURE" with
        | some a => .ok (some (pyLower a))
        | none => .error (.error "Unable to detect native OS architecture")

/-- Line 67, `arch = arch or _windows_detect_native_arch()`: keep a truthy
(non-empty) `arch` argument, otherwise fall back to detection. -/
def arch_or_detect (w : World) (arch : Option String) : Except PyExc (Option String) :=
  match arch with
  | some a => if a = "" then windows_detect_native_arch w else .ok (some a)
  | none => windows_detect_native_arch w

/-- Line 69, `root = os.environ.get("ProgramFiles(x86)") or
os.environ.get("ProgramFiles")`: Python `or` takes the second operand
whenever the first is `None` or the empty string. -/
def program_files_root (w : World) : Option String :=
  match w.environ "ProgramFiles(x86)" with
  | some r => if r = "" then w.environ "ProgramFiles" else some r
  | none => w.environ "ProgramFiles"

/-- The vcvars script selection of lines 94-102: for an `arm64` target try
`vcvarsarm64.bat` then fall back to `vcvarsx86_arm64.bat`; for any other
target try `vcvars64.bat` then fall back to `vcvarsx86_amd64.bat`.  Path
joining is modelled with a `/` separator. -/
def choose_vcvars (fs : FileSys) (arch : Option String) (installation_path : String) : String :=
  if arch = some "arm64" then
    let p := installation_path ++ "/VC/Auxiliary/Build/vcvarsarm64.bat"
    if fs p then p else installation_path ++ "/VC/Auxiliary/Build/vcvarsx86_arm64.bat"
  else
    let p := installation_path ++ "/VC/Auxiliary/Build/vcvars64.bat"
    if fs p then p else installation_path ++ "/VC/Auxiliary/Build/vcvarsx86_amd64.bat"

/-- Models `tmp.write(bat); tmp.flush(); tmp.close()` creating the
uniquely-named temporary file on disk (lines 115-118). -/
def tempfile_write (fs : FileSys) (name : String) : FileSys :=
  fun p => if p = name then true else fs p

/-- Models `os.unlink(name)` (line 123). -/
def os_unlink (fs : FileSys) (name : String) : FileSys :=
  fun p => if p = name then false else fs p

/-- Embedding of lines 115-123: write the synthesized batch file, then
`try: out = subprocess.run(tmp.name, ..., check=True).stdout` with
`finally: os.unlink(tmp.name)`.  The `finally` clause runs on every exit
from the `try` block — normal return, `CalledProcessError` from the
non-zero exit status, or an exception from `subprocess.run` itself — so
the unlink is applied after the outcome in all branches.  Returns the
result of the `try` block and the filesystem after the `finally`. -/
def run_script_block (fs : FileSys) (name : String) (outcome : ScriptOutcome) :
    Except PyExc (List String) × FileSys :=
  let fs1 := tempfile_write fs name
  let r : Except PyExc (List String) :=
    match outcome with
    | .oserror m => .error (.osError m)
    | .completed c lines => if c ≠ 0 then .error (.calledProcessError c) else .ok lines
  (r, os_unlink fs1 name)

/-- Models `shutil.which(compile)` at line 64.  The argument is the Python
built-in function `compile`, not the loop variable `compiler`: CPython's
`shutil.which` applies `os.path` functions to its argument, and
`os.fspath` raises `TypeError` on a function object, so the call raises on
the first loop iteration and never consults the search path. -/
def whichCompileResult : Except PyExc (Option String) :=
  .error (.typeError "expected str, bytes or os.PathLike object, not builtin_function_or_method")

/-- The loop of lines 63-65, `for compiler in 'cc', 'gcc', 'clang',
'clang-cl': if shutil.which(compile): return env`: iterate the candidate
tuple, returning `some env` on a truthy `which` result, `none` when the
loop completes.  Every iteration evaluates `shutil.which(compile)` (see
`whichCompileResult`). -/
def which_loop_go (env : Env) : List String → Except PyExc (Option Env)
  | [] => .ok none
  | _ :: rest =>
    match whichCompileResult with
    | .error e => .error e
    | .ok (some _) => .ok (some env)
    | .ok none => which_loop_go env rest

/-- The candidate-compiler check of lines 62-65. -/
def which_loop (env : Env) : Except PyExc (Option Env) :=
  which_loop_go env ["cc", "gcc", "clang", "clang-cl"]

/-- The fixed locator location of line 71, `pathlib.Path(root, 'Microsoft
Visual Studio/Installer/vswhere.exe')` (the local variable `vswhere`). -/
def vswhere_path (root : String) : String :=
  root ++ "/Microsoft Visual Studio/Installer/vswhere.exe"

/-- The extraction phase of `_setup_env` (lines 67-140): resolve the
architecture, locate `vswhere.exe` under the program-files root, run it and
parse its JSON output, pick the vcvars script, run the synthesized batch
file, and merge the dumped environment.  Returns the result (merged
environment or raised exception) together with the final filesystem. -/
def extract (w : World) (arch : Option String) (env : Env) : Except PyExc Env × FileSys :=
  match arch_or_detect w arch with
  | .error e => (.error e, w.fs)
  | .ok arch =>
    match program_files_root w with
    | none =>
      -- pathlib.Path(None, ...) raises TypeError (line 71)
      (.error (.typeError "argument should be a str or an os.PathLike object, not NoneType"), w.fs)
    | some root =>
      if ¬ w.fs (vswhere_path root) then
        (.error (.error ("Could not find " ++ vswhere_path root)), w.fs)
      else if w.locatorExit ≠ 0 then
        (.error (.calledProcessError w.locatorExit), w.fs)
      else
        match w.locatorJson with
        | none => (.error (.jsonDecodeError "Expecting value"), w.fs)
        | some info =>
          match info with
          | [] => (.error (.error "Could not parse vswhere.exe output"), w.fs)
          | installation_path :: _ =>
            if ¬ w.fs (choose_vcvars w.fs arch installation_path) then
              (.error (.error "Could not find vcvars.bat"), w.fs)
            else
              match run_script_block w.fs w.tmpName w.script with
              | (.error e, fs) => (.error e, fs)
              | (.ok lines, fs) => (.ok (scanOutput w.sep lines env), fs)

/-- Embedding of `_setup_env` (lines 54-140): copy `os.environ` (the copy
`env`'s lookups coincide with `w.environ`, written directly below), return
it unchanged off Windows or under Cygwin, run the candidate-compiler check
when discovery is not forced, and otherwise extract.  Returns the result
and the final filesystem. -/
def setup_env (w : World) (arch : Option String) (force : Bool) :
    Except PyExc Env × FileSys :=
  if w.platform ≠ "win32" then (.ok w.environ, w.fs)
  else if w.environ "OSTYPE" = some "cygwin" then (.ok w.environ, w.fs)
  else if force then extract w arch w.environ
  else
    match which_loop w.environ with
    | .error e => (.error e, w.fs)
    | .ok (some e) => (.ok e, w.fs)
    | .ok none => extract w arch w.environ

/-- How an invocation of `main` ends: either `os.execvpe(sys.argv[1],
sys.argv[1:], env)` replaces the process image, or an exception escapes
`main` and the interpreter terminates. -/
inductive Termination where
  | execed (prog : String) (args : List String) (env : Env)
  | raised (e : PyExc)

/-- Whether `os.execvpe` was reached. -/
def Termination.isExecReached : Termination → Bool
  | .execed _ _ _ => true
  | .raised _ => false

/-- The exit status of the program itself: `none` when the process image
was replaced (this program never returns), `some 1` when an exception
escaped `main` — CPython terminates with status 1 on an unhandled
exception. -/
def Termination.exitCode : Termination → Option Nat
  | .execed _ _ _ => none
  | .raised _ => some 1

/-- What an invocation of `main` wrote to `sys.stderr` (the lines printed
by the program itself; interpreter tracebacks are not modelled) and how it
ended. -/
structure MainResult where
  stderr : List String
  term : Termination

/-- Embedding of `main` (lines 143-149): call `_setup_env(None, True)`; on
the module's own `Error`, print `error: <exc>` to `sys.stderr` and then
evaluate `os.exit(1)` — the `os` module has no attribute `exit`, so this
raises `AttributeError`, which escapes `main`; any other exception from
`_setup_env` escapes uncaught.  On success, `os.execvpe(sys.argv[1],
sys.argv[1:], env)` (an `IndexError` when no command argument was given). -/
def main (w : World) (argv : List String) : MainResult :=
  match (setup_env w none true).1 with
  | .ok env =>
    match argv.drop 1 with
    | [] => { stderr := [], term := .raised (.indexError "list index out of range") }
    | prog :: rest => { stderr := [], term := .execed prog (prog :: rest) env }
  | .error (.error msg) =>
    { stderr := ["error: " ++ msg]
      term := .raised (.attributeError "module os has no attribute exit") }
  | .error e => { stderr := [], term := .raised e }

/-- The exception raised by a `_setup_env` outcome, if any. -/
def raised : Except PyExc Env → Option PyExc
  | .error e => some e
  | .ok _ => none

/-! ### Concrete worlds used to instantiate the theorems -/

/-- A Windows host with a working `gcc` resolvable on the search path. -/
def buggyWhichWorld : World :=
  { platform := "win32"
    environ := fun kk => if kk = "PATH" then some "C:/mingw/bin" else none
    whichName := fun n => if n = "gcc" then some "C:/mingw/bin/gcc.exe" else none
    wow64 := .machine 0x8664
    fs := fun _ => false
    locatorExit := 0
    locatorJson := none
    sep := "u-u-i-d"
    tmpName := "C:/tmp/tmp123.bat"
    script := .completed 0 [] }

/-- A Windows host whose environment lacks every architecture signal, so
detection fails with the domain error. -/
def mainErrorWorld : World :=
  { platform := "win32"
    environ := fun _ => none
    whichName := fun _ => none
    wow64 := .unavailable
    fs := fun _ => false
    locatorExit := 0
    locatorJson := none
    sep := "u-u-i-d"
    tmpName := "C:/tmp/tmp123.bat"
    script := .completed 0 [] }

/-- A non-Windows host: `_setup_env` returns the environment copy at once. -/
def linuxWorld : World :=
  { platform := "linux"
    environ := fun kk => if kk = "PATH" then some "/usr/bin" else none
    whichName := fun _ => none
    wow64 := .unavailable
    fs := fun _ => false
    locatorExit := 0
    locatorJson := none
    sep := "u-u-i-d"
    tmpName := "/tmp/tmp123.bat"
    script := .completed 0 [] }

/-- A Windows host where `vswhere.exe` exists but its output is not valid
JSON. -/
def badJsonWorld : World :=
  { platform := "win32"
    environ := fun kk => if kk = "ProgramFiles" then some "C:/Program Files" else none
    whichName := fun _ => none
    wow64 := .machine 0x8664
    fs := fun p =>
      if p = "C:/Program Files/Microsoft Visual Studio/Installer/vswhere.exe" then true
      else false
    locatorExit := 0
    locatorJson := none
    sep := "u-u-i-d"
    tmpName := "C:/tmp/tmp123.bat"
    script := .completed 0 [] }

/-- A Windows host where `vswhere.exe` exists and reports an empty JSON
array of installations. -/
def emptyJsonWorld : World :=
  { platform := "win32"
    environ := fun kk => if kk = "ProgramFiles" then some "C:/Program Files" else none
    whichName := fun _ => none
    wow64 := .machine 0x8664
    fs := fun p =>
      if p = "C:/Program Files/Microsoft Visual Studio/Installer/vswhere.exe" then true
      else false
    locatorExit := 0
    locatorJson := some []
    sep := "u-u-i-d"
    tmpName := "C:/tmp/tmp123.bat"
    script := .completed 0 [] }

/-- An arm64 Windows host whose installation ships only the
`vcvarsx86_arm64.bat` cross script. -/
def arm64World : World :=
  { platform := "win32"
    environ := fun kk => if kk = "ProgramFiles" then some "C:/PF" else none
    whichName := fun _ => none
    wow64 := .machine 0xAA64
    fs := fun p =>
      if p = "C:/PF/Microsoft Visual Studio/Installer/vswhere.exe" then true
      else if p = "C:/VS/VC/Auxiliary/Build/vcvarsx86_arm64.bat" then true
      else false
    locatorExit := 0
    locatorJson := some ["C:/VS"]
    sep := "u-u-i-d"
    tmpName := "C:/tmp/tmp123.bat"
    script := .completed 0 [] }

/-- A WOW64 process on an arm64 host, where only the environment variables
reveal the native architecture. -/
def detectWorld : World :=
  { platform := "win32"
    environ := fun kk => if kk = "PROCESSOR_ARCHITEW6432" then some "ARM64" else none
    whichName := fun _ => none
    wow64 := .unavailable
    fs := fun _ => false
    locatorExit := 0
    locatorJson := none
    sep := "u-u-i-d"
    tmpName := "C:/tmp/tmp123.bat"
    script := .completed 0 [] }

/-- A plain Windows host with `gcc` on the search path, used to show the
CLI path ignores it. -/
def cliWorld : World :=
  { platform := "win32"
    environ := fun kk => if kk = "ProgramFiles" then some "C:/PF" else none
    whichName := fun _ => none
    wow64 := .machine 0x8664
    fs := fun _ => false
    locatorExit := 0
    locatorJson := none
    sep := "u-u-i-d"
    tmpName := "C:/tmp/tmp123.bat"
    script := .completed 0 [] }

/-! ### Supporting lemmas -/

theorem envSet_same (env : Env) (k v : String) : envSet env k v k = some v := by
  simp [envSet]

theorem envSet_other (env : Env) (k v k' : String) (h : k' ≠ k) :
    envSet env k v k' = env k' := by
  simp [envSet, h]

theorem dropThroughSep_append (sep : String) (pre rest : List String) (h : sep ∉ pre) :
    dropThroughSep sep (pre ++ sep :: rest) = rest := by
  induction pre with
  | nil => simp [dropThroughSep]
  | cons l pre ih =>
    have hl : l ≠ sep := fun he => h (he ▸ List.mem_cons_self l pre)
    have hpre : sep ∉ pre := fun hm => h (List.mem_cons_of_mem l hm)
    simp [dropThroughSep, hl, ih hpre]

theorem applyLines_append_one (env : Env) (ls : List String) (l : String) :
    applyLines env (ls ++ [l]) = applyLine (applyLines env ls) l := by
  simp [applyLines, List.foldl_append]

theorem splitKV_empty : splitKV "" = none := rfl

theorem applyLine_skip (env : Env) (line : String) (h : splitKV line = none) :
    applyLine env line = env := by
  unfold applyLine
  split
  · rfl
  · rw [h]

theorem applyLine_assign (env : Env) (line k v : String) (h : splitKV line = some (k, v)) :
    applyLine env line = envSet env k v := by
  have hne : line ≠ "" := by
    intro he
    rw [he, splitKV_empty] at h
    exact Option.noConfusion h
  unfold applyLine
  rw [if_neg hne, h]

theorem applyLine_isSome (env : Env) (line k : String) (h : (env k).isSome = true) :
    ((applyLine env line) k).isSome = true := by
  unfold applyLine
  split
  · exact h
  · cases hsp : splitKV line with
    | none => simp only [hsp]; exact h
    | some kv =>
      obtain ⟨k0, v0⟩ := kv
      simp only [hsp]
      by_cases hk : k = k0
      · simp [envSet, hk]
      · rw [envSet_other env k0 v0 k hk]
        exact h

theorem applyLines_isSome (lines : List String) (env : Env) (k : String)
    (h : (env k).isSome = true) : ((applyLines env lines) k).isSome = true := by
  induction lines generalizing env with
  | nil => exact h
  | cons l ls ih =>
    have : applyLines env (l :: ls) = applyLines (applyLine env l) ls := rfl
    rw [this]
    exact ih (applyLine env l) (applyLine_isSome env l k h)

theorem scanOutput_isSome (sep : String) (lines : List String) (env : Env) (k : String)
    (h : (env k).isSome = true) : ((scanOutput sep lines env) k).isSome = true :=
  applyLines_isSome (dropThroughSep sep lines) env k h

theorem pyLower_ne_empty (s : String) (h : s ≠ "") : pyLower s ≠ "" := by
  intro hc
  apply h
  cases s with
  | mk l =>
    have hdata : l.map Char.toLower = [] := congrArg String.data hc
    have : l = [] := List.map_eq_nil_iff.mp hdata
    rw [this]

theorem run_script_block_deletes (fs : FileSys) (name : String) (outcome : ScriptOutcome) :
    ((run_script_block fs name outcome).2) name = false := by
  simp [run_script_block, os_unlink]

theorem extract_fs_clean (w : World) (arch : Option String) (env : Env) :
    (extract w arch env).2 w.tmpName = false ∨ (extract w arch env).2 = w.fs := by
  unfold extract
  repeat' split
  any_goals (right; rfl)
  all_goals
    rename_i heq
    left
    have h := run_script_block_deletes w.fs w.tmpName w.script
    rw [heq] at h
    simpa using h

theorem extract_ok_keys (w : World) (arch : Option String) (env env' : Env) (k : String)
    (hok : (extract w arch env).1 = .ok env') (hk : (env k).isSome = true) :
    (env' k).isSome = true := by
  unfold extract at hok
  repeat' split at hok
  all_goals simp at hok
  subst hok
  exact scanOutput_isSome _ _ env k hk

/-! ### Claim theorems -/

/-- C1: in `_setup_env`'s output scan, for lines after the first line equal
to the separator token: a blank line leaves the environment unchanged; a
line with no `=` leaves it unchanged (and does not raise — `applyLine` is
total, modelling the `except ValueError: pass` handler); any other line is
split on the first `=` and `env[key]` is assigned the value, overwriting
any prior binding of that key while leaving other keys untouched, so that
when lines share a key the later line's value is the one returned. -/
theorem scan_merges_lines_after_separator (sep : String) (pre ls : List String)
    (env : Env) (bad line k v k' : String)
    (hsep : sep ∉ pre) (hbad : splitKV bad = none)
    (hkv : splitKV line = some (k, v)) (hk' : k' ≠ k) :
    scanOutput sep (pre ++ sep :: (ls ++ [""])) env = scanOutput sep (pre ++ sep :: ls) env
  ∧ scanOutput sep (pre ++ sep :: (ls ++ [bad])) env = scanOutput sep (pre ++ sep :: ls) env
  ∧ scanOutput sep (pre ++ sep :: (ls ++ [line])) env k = some v
  ∧ scanOutput sep (pre ++ sep :: (ls ++ [line])) env k' = scanOutput sep (pre ++ sep :: ls) env k' := by
  unfold scanOutput
  rw [dropThroughSep_append sep pre _ hsep, dropThroughSep_append sep pre _ hsep,
    dropThroughSep_append sep pre _ hsep, dropThroughSep_append sep pre _ hsep,
    applyLines_append_one, applyLines_append_one, applyLines_append_one]
  refine ⟨?_, ?_, ?_, ?_⟩
  · exact applyLine_skip _ "" splitKV_empty
  · exact applyLine_skip _ bad hbad
  · rw [applyLine_assign _ line k v hkv]
    exact envSet_same _ k v
  · rw [applyLine_assign _ line k v hkv]
    exact envSet_other _ k v k' hk'

/-- Witness for C1 at a concrete scan: output
`X=evil / SEP / X=1 / <line>` with separator `SEP`. -/
theorem scan_merges_lines_after_separator_witness :
    (("SEP" : String) ∉ (["X=evil"] : List String)
      ∧ splitKV "noeq" = none
      ∧ splitKV "X=2" = some ("X", "2")
      ∧ ("Y" : String) ≠ "X")
  ∧ (scanOutput "SEP" (["X=evil"] ++ "SEP" :: (["X=1"] ++ [""])) (fun _ => none)
        = scanOutput "SEP" (["X=evil"] ++ "SEP" :: ["X=1"]) (fun _ => none)
    ∧ scanOutput "SEP" (["X=evil"] ++ "SEP" :: (["X=1"] ++ ["noeq"])) (fun _ => none)
        = scanOutput "SEP" (["X=evil"] ++ "SEP" :: ["X=1"]) (fun _ => none)
    ∧ scanOutput "SEP" (["X=evil"] ++ "SEP" :: (["X=1"] ++ ["X=2"])) (fun _ => none) "X" = some "2"
    ∧ scanOutput "SEP" (["X=evil"] ++ "SEP" :: (["X=1"] ++ ["X=2"])) (fun _ => none) "Y"
        = scanOutput "SEP" (["X=evil"] ++ "SEP" :: ["X=1"]) (fun _ => none) "Y") :=
  ⟨⟨by decide, by decide, by decide, by decide⟩,
    scan_merges_lines_after_separator "SEP" ["X=evil"] ["X=1"] (fun _ => none)
      "noeq" "X=2" "X" "2" "Y" (by decide) (by decide) (by decide) (by decide)⟩

/-- C5: lines at or before the first occurrence of the separator token have
no effect on the environment returned by the scan, even when they match the
`KEY=VALUE` shape: two captured outputs that differ only before the
separator yield identical environments. -/
theorem output_before_separator_irrelevant (sep : String) (pre1 pre2 rest : List String)
    (env : Env) (h1 : sep ∉ pre1) (h2 : sep ∉ pre2) :
    scanOutput sep (pre1 ++ sep :: rest) env = scanOutput sep (pre2 ++ sep :: rest) env := by
  unfold scanOutput
  rw [dropThroughSep_append sep pre1 rest h1, dropThroughSep_append sep pre2 rest h2]

/-- Witness for C5: chatter `FOO=bar` before the separator changes
nothing relative to no chatter at all. -/
theorem output_before_separator_irrelevant_witness :
    (("SEP" : String) ∉ (["FOO=bar"] : List String) ∧ ("SEP" : String) ∉ ([] : List String))
  ∧ scanOutput "SEP" (["FOO=bar"] ++ "SEP" :: ["A=1"]) (fun _ => none)
      = scanOutput "SEP" ([] ++ "SEP" :: ["A=1"]) (fun _ => none) :=
  ⟨⟨by decide, by decide⟩,
    output_before_separator_irrelevant "SEP" ["FOO=bar"] [] ["A=1"] (fun _ => none)
      (by decide) (by decide)⟩

/-- C2: whenever `_setup_env(None, True)` raises the module's domain
`Error`, `main` prints `error: <description>` to `sys.stderr` and the
program terminates with a non-zero exit status without ever reaching
`os.execvpe`.  (The termination happens through the `os.exit(1)` call
raising `AttributeError` — `os` has no `exit` — which escapes `main`;
CPython exits with status 1 on the unhandled exception.) -/
theorem main_domain_error_abort (w : World) (argv : List String) (msg : String)
    (h : (setup_env w none true).1 = .error (.error msg)) :
    (main w argv).stderr = ["error: " ++ msg]
  ∧ (main w argv).term.exitCode = some 1
  ∧ (main w argv).term.isExecReached = false := by
  unfold main
  rw [h]
  exact ⟨rfl, rfl, rfl⟩

/-- Witness for C2: a Windows host with no architecture signal fails
detection with the domain error, and `main` aborts before any exec. -/
theorem main_domain_error_abort_witness :
    (setup_env mainErrorWorld none true).1
      = .error (.error "Unable to detect native OS architecture")
  ∧ ((main mainErrorWorld ["vsenv", "cl"]).stderr
        = ["error: " ++ "Unable to detect native OS architecture"]
    ∧ (main mainErrorWorld ["vsenv", "cl"]).term.exitCode = some 1
    ∧ (main mainErrorWorld ["vsenv", "cl"]).term.isExecReached = false) :=
  ⟨rfl, main_domain_error_abort mainErrorWorld ["vsenv", "cl"]
    "Unable to detect native OS architecture" rfl⟩

/-- C3 evaluated at the failing input (code bug): on a Windows host where
`gcc` resolves on the search path and discovery is not forced, the claim
expects the unchanged environment copy with no locator invocation, but line
64 calls `shutil.which(compile)` — the built-in function `compile`, not the
loop variable `compiler` — which raises `TypeError` on the first loop
iteration, so `_setup_env` raises instead of returning. -/
theorem setup_env_which_typeerror :
    buggyWhichWorld.platform = "win32"
  ∧ buggyWhichWorld.whichName "gcc" = some "C:/mingw/bin/gcc.exe"
  ∧ (setup_env buggyWhichWorld (some "amd64") false).1
      = .error (.typeError "expected str, bytes or os.PathLike object, not builtin_function_or_method") :=
  ⟨rfl, rfl, rfl⟩

/-- C4 counterexample: when the locator's captured output fails to parse as
JSON, the raised exception is `json.JSONDecodeError` — line 88's
`json.loads(out)` is not guarded by any handler — and not the module's
domain `Error` type, contrary to the claim. -/
theorem json_failure_raises_nondomain :
    badJsonWorld.locatorJson = none
  ∧ (setup_env badJsonWorld none true).1 = .error (.jsonDecodeError "Expecting value")
  ∧ (raised ((setup_env badJsonWorld none true).1)).map PyExc.isDomainError = some false :=
  ⟨rfl, rfl, rfl⟩

/-- C4 amended: if the locator's captured stdout parses to an empty JSON
array, extraction fails with the domain `Error('Could not parse vswhere.exe
output')`; if parsing the output as JSON fails, a `json.JSONDecodeError`
(not the domain `Error` type) propagates instead.  In both cases the result
is an exception, so no merged environment is produced. -/
theorem locator_output_errors (w : World) (arch a : Option String) (env : Env) (root : String)
    (harch : arch_or_detect w arch = .ok a)
    (hroot : program_files_root w = some root)
    (hvsw : w.fs (vswhere_path root) = true)
    (hexit : w.locatorExit = 0) :
    (w.locatorJson = some [] →
      (extract w arch env).1 = .error (.error "Could not parse vswhere.exe output"))
  ∧ (w.locatorJson = none →
      (extract w arch env).1 = .error (.jsonDecodeError "Expecting value")
    ∧ (raised ((extract w arch env).1)).map PyExc.isDomainError = some false) := by
  constructor
  · intro hjson
    simp [extract, harch, hroot, hvsw, hexit, hjson]
  · intro hjson
    have h1 : (extract w arch env).1 = .error (.jsonDecodeError "Expecting value") := by
      simp [extract, harch, hroot, hvsw, hexit, hjson]
    exact ⟨h1, by rw [h1]; rfl⟩

/-- Witness for C4 (amended) at a concrete Windows host whose locator
reports an empty installation array. -/
theorem locator_output_errors_witness :
    (arch_or_detect emptyJsonWorld none = .ok (some "amd64")
      ∧ program_files_root emptyJsonWorld = some "C:/Program Files"
      ∧ emptyJsonWorld.fs (vswhere_path "C:/Program Files") = true
      ∧ emptyJsonWorld.locatorExit = 0)
  ∧ ((emptyJsonWorld.locatorJson = some [] →
        (extract emptyJsonWorld none emptyJsonWorld.environ).1
          = .error (.error "Could not parse vswhere.exe output"))
    ∧ (emptyJsonWorld.locatorJson = none →
        (extract emptyJsonWorld none emptyJsonWorld.environ).1
          = .error (.jsonDecodeError "Expecting value")
      ∧ (raised ((extract emptyJsonWorld none emptyJsonWorld.environ).1)).map PyExc.isDomainError
          = some false)) :=
  ⟨⟨rfl, rfl, rfl, rfl⟩,
    locator_output_errors emptyJsonWorld none (some "amd64") emptyJsonWorld.environ
      "C:/Program Files" rfl rfl rfl rfl⟩

/-- C6: the uniquely-named temporary batch file does not exist on disk once
the script-execution step completes, in every outcome — subprocess exit
zero, non-zero exit (`CalledProcessError`), or an exception from
`subprocess.run` itself — thanks to the `finally: os.unlink(tmp.name)`; and
across a whole `_setup_env` run the final filesystem either lacks the
temporary file or is the untouched initial one (for runs that never create
it). -/
theorem tmp_script_deleted_every_outcome (fs : FileSys) (name : String)
    (outcome : ScriptOutcome) (w : World) (arch : Option String) (force : Bool) :
    ((run_script_block fs name outcome).2) name = false
  ∧ ((setup_env w arch force).2 w.tmpName = false ∨ (setup_env w arch force).2 = w.fs) := by
  constructor
  · exact run_script_block_deletes fs name outcome
  · unfold setup_env
    repeat' split
    any_goals (right; rfl)
    all_goals exact extract_fs_clean w arch w.environ

/-- C7: on Windows, when the `IsWow64Process2` path yields no architecture,
detection returns `PROCESSOR_ARCHITEW6432` lower-cased when it is present
and non-empty, otherwise `PROCESSOR_ARCHITECTURE` lower-cased when present,
and raises the domain `Error('Unable to detect native OS architecture')`
exactly when `PROCESSOR_ARCHITEW6432` is empty or absent and
`PROCESSOR_ARCHITECTURE` is absent. -/
theorem detect_arch_env_fallback (w : World) (s t : String)
    (hplat : w.platform = "win32") (hapi : wow64_arch w = none) :
    (w.environ "PROCESSOR_ARCHITEW6432" = some s → s ≠ "" →
      windows_detect_native_arch w = .ok (some (pyLower s)))
  ∧ ((w.environ "PROCESSOR_ARCHITEW6432" = none ∨ w.environ "PROCESSOR_ARCHITEW6432" = some "") →
      w.environ "PROCESSOR_ARCHITECTURE" = some t →
      windows_detect_native_arch w = .ok (some (pyLower t)))
  ∧ ((w.environ "PROCESSOR_ARCHITEW6432" = none ∨ w.environ "PROCESSOR_ARCHITEW6432" = some "") →
      w.environ "PROCESSOR_ARCHITECTURE" = none →
      windows_detect_native_arch w = .error (.error "Unable to detect native OS architecture")) := by
  refine ⟨?_, ?_, ?_⟩
  · intro hW hs
    simp [windows_detect_native_arch, hplat, hapi, hW, pyLower_ne_empty s hs]
  · intro hW hA
    have hempty : pyLower ((w.environ "PROCESSOR_ARCHITEW6432").getD "") = "" := by
      rcases hW with h | h <;> rw [h] <;> rfl
    simp [windows_detect_native_arch, hplat, hapi, hempty, hA]
  · intro hW hA
    have hempty : pyLower ((w.environ "PROCESSOR_ARCHITEW6432").getD "") = "" := by
      rcases hW with h | h <;> rw [h] <;> rfl
    simp [windows_detect_native_arch, hplat, hapi, hempty, hA]

/-- Witness for C7: a WOW64 process whose `PROCESSOR_ARCHITEW6432` reads
`ARM64` detects the lower-cased `arm64`. -/
theorem detect_arch_env_fallback_witness :
    (detectWorld.platform = "win32" ∧ wow64_arch detectWorld = none)
  ∧ ((detectWorld.environ "PROCESSOR_ARCHITEW6432" = some "ARM64" → "ARM64" ≠ "" →
        windows_detect_native_arch detectWorld = .ok (some (pyLower "ARM64")))
    ∧ ((detectWorld.environ "PROCESSOR_ARCHITEW6432" = none
          ∨ detectWorld.environ "PROCESSOR_ARCHITEW6432" = some "") →
        detectWorld.environ "PROCESSOR_ARCHITECTURE" = some "AMD64" →
        windows_detect_native_arch detectWorld = .ok (some (pyLower "AMD64")))
    ∧ ((detectWorld.environ "PROCESSOR_ARCHITEW6432" = none
          ∨ detectWorld.environ "PROCESSOR_ARCHITEW6432" = some "") →
        detectWorld.environ "PROCESSOR_ARCHITECTURE" = none →
        windows_detect_native_arch detectWorld
          = .error (.error "Unable to detect native OS architecture"))) :=
  ⟨⟨rfl, rfl⟩, detect_arch_env_fallback detectWorld "ARM64" "AMD64" rfl rfl⟩

/-- C8: for an `arm64` target whose installation lacks `vcvarsarm64.bat`
but ships `vcvarsx86_arm64.bat`, the selection of lines 94-97 picks the
fallback path, and extraction does not raise
`Error('Could not find vcvars.bat')`. -/
theorem arm64_fallback_selected (w : World) (env : Env) (root ip : String)
    (rest : List String)
    (hroot : program_files_root w = some root)
    (hvsw : w.fs (vswhere_path root) = true)
    (hexit : w.locatorExit = 0)
    (hjson : w.locatorJson = some (ip :: rest))
    (h1 : w.fs (ip ++ "/VC/Auxiliary/Build/vcvarsarm64.bat") = false)
    (h2 : w.fs (ip ++ "/VC/Auxiliary/Build/vcvarsx86_arm64.bat") = true) :
    choose_vcvars w.fs (some "arm64") ip = ip ++ "/VC/Auxiliary/Build/vcvarsx86_arm64.bat"
  ∧ (extract w (some "arm64") env).1 ≠ .error (.error "Could not find vcvars.bat") := by
  have hch : choose_vcvars w.fs (some "arm64") ip
      = ip ++ "/VC/Auxiliary/Build/vcvarsx86_arm64.bat" := by
    simp [choose_vcvars, h1]
  refine ⟨hch, ?_⟩
  have harch : arch_or_detect w (some "arm64") = .ok (some "arm64") := rfl
  simp only [extract, harch, hroot, hvsw, hexit, hjson, hch, h2]
  rcases hs : w.script with ⟨c, lines⟩ | m
  · by_cases hc : c = 0 <;> simp [run_script_block, hs, hc]
  · simp [run_script_block, hs]

/-- Witness for C8: an arm64 host whose installation root `C:/VS` has only
the cross script on disk. -/
theorem arm64_fallback_selected_witness :
    (program_files_root arm64World = some "C:/PF"
      ∧ arm64World.fs (vswhere_path "C:/PF") = true
      ∧ arm64World.locatorExit = 0
      ∧ arm64World.locatorJson = some ("C:/VS" :: [])
      ∧ arm64World.fs ("C:/VS" ++ "/VC/Auxiliary/Build/vcvarsarm64.bat") = false
      ∧ arm64World.fs ("C:/VS" ++ "/VC/Auxiliary/Build/vcvarsx86_arm64.bat") = true)
  ∧ (choose_vcvars arm64World.fs (some "arm64") "C:/VS"
        = "C:/VS" ++ "/VC/Auxiliary/Build/vcvarsx86_arm64.bat"
    ∧ (extract arm64World (some "arm64") arm64World.environ).1
        ≠ .error (.error "Could not find vcvars.bat")) :=
  ⟨⟨rfl, rfl, rfl, rfl, rfl, rfl⟩,
    arm64_fallback_selected arm64World arm64World.environ "C:/PF" "C:/VS" []
      rfl rfl rfl rfl rfl rfl⟩

/-- C9: any key present in the process environment at entry is still
present in the environment returned by a successful `_setup_env`: the merge
only adds or overwrites, it never deletes. -/
theorem original_keys_preserved (w : World) (arch : Option String) (force : Bool)
    (env' : Env) (k : String)
    (hok : (setup_env w arch force).1 = .ok env')
    (hk : (w.environ k).isSome = true) :
    (env' k).isSome = true := by
  unfold setup_env at hok
  repeat' split at hok
  case isTrue => simp at hok; subst hok; exact hk
  case isFalse.isTrue => simp at hok; subst hok; exact hk
  case isFalse.isFalse.isTrue => exact extract_ok_keys w arch w.environ env' k hok hk
  case isFalse.isFalse.isFalse.h_1 => simp at hok
  case isFalse.isFalse.isFalse.h_2 e heq =>
    simp [which_loop, which_loop_go, whichCompileResult] at heq
  case isFalse.isFalse.isFalse.h_3 => exact extract_ok_keys w arch w.environ env' k hok hk

/-- Witness for C9: on a non-Windows host the returned environment is the
entry one, so `PATH` survives. -/
theorem original_keys_preserved_witness :
    ((setup_env linuxWorld none false).1 = .ok linuxWorld.environ
      ∧ (linuxWorld.environ "PATH").isSome = true)
  ∧ (linuxWorld.environ "PATH").isSome = true :=
  ⟨⟨rfl, rfl⟩, original_keys_preserved linuxWorld none false linuxWorld.environ "PATH" rfl rfl⟩

/-- C10: `main` invokes `_setup_env(None, True)`, so on plain Windows the
candidate-compiler search-path check is skipped and the call goes straight
to locator-based extraction; the outcome — of the setup call and of the
whole CLI invocation — is independent of what executables resolve on the
search path. -/
theorem cli_forces_discovery (w : World) (f : String → Option String) (argv : List String)
    (hplat : w.platform = "win32") (hcyg : w.environ "OSTYPE" ≠ some "cygwin") :
    setup_env w none true = extract w none w.environ
  ∧ setup_env { w with whichName := f } none true = setup_env w none true
  ∧ main { w with whichName := f } argv = main w argv := by
  refine ⟨?_, rfl, rfl⟩
  simp [setup_env, hplat, hcyg]

/-- Witness for C10: a plain Windows host; with `vswhere.exe` absent the
forced extraction fails identically whatever is on the search path. -/
theorem cli_forces_discovery_witness :
    (cliWorld.platform = "win32" ∧ cliWorld.environ "OSTYPE" ≠ some "cygwin")
  ∧ (setup_env cliWorld none true = extract cliWorld none cliWorld.environ
    ∧ setup_env { cliWorld with whichName := fun n => if n = "gcc" then some "C:/mingw/bin/gcc.exe" else none } none true
        = setup_env cliWorld none true
    ∧ main { cliWorld with whichName := fun n => if n = "gcc" then some "C:/mingw/bin/gcc.exe" else none } ["vsenv", "cl"]
        = main cliWorld ["vsenv", "cl"]) :=
  ⟨⟨rfl, by decide⟩,
    cli_forces_discovery cliWorld
      (fun n => if n = "gcc" then some "C:/mingw/bin/gcc.exe" else none)
      ["vsenv", "cl"] rfl (by decide)⟩

end Vsenv
